import Mathlib

/-!
# Verification of the tap-to-pay backend against its specification

This file gives a shallow embedding, in Lean 4, of the provider-selection and
settlement-orchestration logic of the `freepay-backend` service, together with
theorems settling the specification claims about it.

Modelling conventions:
* Python `float` amounts, fees and balances are modelled as exact rationals
  (`ℚ`); integer quantities (chain ids, latencies) as `ℤ`/`ℕ`.
* Python dicts with insertion order are modelled as association lists
  (`List (String × _)`), and `d.get(k, default)` as `(l.lookup k).getD default`.
* Network calls are modelled as oracles passed in as arguments: a call that can
  fail (raise) is an `Except String _` value, a per-URL call is a function from
  the URL to its outcome.  Python exceptions that a function catches and turns
  into a result dictionary are the `.error` branches of those oracles.
* Python's stable `sorted(xs, key=f)` is modelled by
  `List.mergeSort xs (fun a b => decide (f a ≤ f b))`, which is a stable merge
  sort sorting by the same boolean comparison.
* `time.time()`, `random.randint` and `time.strftime` results (transaction ids
  and timestamps) are passed in as explicit string parameters.
-/

/-! ## `circle_integration.py`: `USDCSmartRouter` -/

/-- Static per-chain USDC transfer fee table (`USDCSmartRouter.__init__`,
`self.chain_fees`). -/
def chain_fees : List (String × ℚ) :=
  [("ETH", 15.00), ("MATIC", 0.01), ("ARB", 0.10),
   ("OP", 0.10), ("BASE", 0.05), ("AVAX", 0.50)]

/-- Static per-chain latency table in seconds (`USDCSmartRouter.__init__`,
`self.chain_speeds`). -/
def chain_speeds : List (String × ℕ) :=
  [("ETH", 180), ("MATIC", 3), ("ARB", 2), ("OP", 2), ("BASE", 2), ("AVAX", 2)]

/-- Lookup `self.chain_fees.get(x, 999)`: fee of a chain, `999` when absent. -/
def feeOf (c : String) : ℚ := (chain_fees.lookup c).getD 999

/-- Lookup `self.chain_speeds.get(x, 999)`: latency of a chain, `999` when absent. -/
def speedOf (c : String) : ℕ := (chain_speeds.lookup c).getD 999

/-- The boolean comparison `sorted(..., key=key)` sorts by. -/
def keyLE {α β : Type} [LinearOrder β] (key : α → β) : α → α → Bool :=
  fun a b => decide (key a ≤ key b)

/-- Model of `USDCSmartRouter.select_optimal_chain`: default `"BASE"` on an empty list,
otherwise the head of the list stably sorted by fee (priority `"cost"`) or by
latency (any other priority). -/
def select_optimal_chain (amount : ℚ) (available_chains : List String)
    (priority : String) : String :=
  if available_chains.isEmpty then "BASE"
  else if priority = "cost" then
    (available_chains.mergeSort (keyLE feeOf)).headD "BASE"
  else
    (available_chains.mergeSort (keyLE speedOf)).headD "BASE"

/-! ## `circle_integration.py`: `process_circle_payment` -/

/-- Normalized result dictionary of `process_circle_payment`.  Keys absent from
a branch of the Python code are `none`. -/
structure CirclePaymentResult where
  success : Bool
  provider : String
  transfer_id : Option String
  amount : Option ℚ
  chain : Option String
  fee : Option ℚ
  estimated_time : Option ℕ
  status : Option String
  message : Option String
  error : Option String

/-- The chain `process_circle_payment` executes the transfer on: the preferred
chain when given and truthy (Python `if not preferred_chain`), otherwise the
router's cost-optimal chain among those whose balance covers the amount. -/
def circle_selected_chain (amount : ℚ) (preferred_chain : Option String)
    (balances : List (String × ℚ)) : String :=
  let available_chains :=
    (balances.filter fun p => decide (amount ≤ p.2)).map Prod.fst
  match preferred_chain with
  | none => select_optimal_chain amount available_chains "cost"
  | some c =>
    if c = "" then select_optimal_chain amount available_chains "cost" else c

/-- Model of `process_circle_payment`.  `balancesResult` is the outcome of
`client.get_wallet_balance(customer_wallet)` (chain ↦ USDC balance), and
`transferResult chain` the outcome of `client.create_transfer(..., blockchain=chain)`,
reduced to the `(id, status)` fields the code reads off the response.  Any
exception is caught and turned into a failure dictionary. -/
def process_circle_payment (amount : ℚ)
    (customer_wallet merchant_wallet : String) (preferred_chain : Option String)
    (balancesResult : Except String (List (String × ℚ)))
    (transferResult : String → Except String (String × String)) :
    CirclePaymentResult :=
  match balancesResult with
  | .error e =>
    ⟨false, "Circle USDC", none, none, none, none, none, none, none, some e⟩
  | .ok balances =>
    let chain := circle_selected_chain amount preferred_chain balances
    match transferResult chain with
    | .error e =>
      ⟨false, "Circle USDC", none, none, none, none, none, none, none, some e⟩
    | .ok (tid, st) =>
      { success := true
        provider := "Circle USDC"
        transfer_id := some tid
        amount := some amount
        chain := some chain
        fee := some ((chain_fees.lookup chain).getD 0)
        estimated_time := some ((chain_speeds.lookup chain).getD 10)
        status := some st
        message := some ("USDC transfer initiated on " ++ chain)
        error := none }

/-! ## `coinbase_integration.py`: `process_coinbase_payment` -/

/-- Normalized result dictionary of `process_coinbase_payment`. -/
structure CoinbasePaymentResult where
  success : Bool
  provider : String
  charge_id : Option String
  payment_url : Option String
  amount : Option ℚ
  status : Option String
  message : Option String
  error : Option String

/-- Model of `process_coinbase_payment`.  `chargeResult` is the outcome of
`client.create_charge(...)`, reduced to the `(id, hosted_url)` fields the code
reads off the response; a failure (non-2xx or exception) is the `.error`
branch, which the surrounding `try/except` turns into a failure dictionary. -/
def process_coinbase_payment (amount : ℚ) (customer_name : String)
    (chargeResult : Except String (String × Option String)) :
    CoinbasePaymentResult :=
  match chargeResult with
  | .error e => ⟨false, "Coinbase Commerce", none, none, none, none, none, some e⟩
  | .ok (cid, url) =>
    { success := true
      provider := "Coinbase Commerce"
      charge_id := some cid
      payment_url := url
      amount := some amount
      status := some "pending"
      message := some
        "Payment charge created. Customer can pay with any cryptocurrency."
      error := none }

/-! ## `demo_backend.py`: in-memory demo store -/

/-- A transaction record appended to a customer's `transactions` list.  The
Python dict key `"to"` (on Alice's record) resp. `"from"` (on Bob's record) is
the `party` field here. -/
structure TxRecord where
  id : String
  type : String
  amount : ℚ
  party : String
  timestamp : String
  settlement_status : Option String
  crypto_tx : String
  chain : String

/-- One entry of `DEMO_CUSTOMERS`. -/
structure Customer where
  id : String
  name : String
  email : String
  balance_usd : ℚ
  transactions : List TxRecord

/-- The mutable in-memory `DEMO_CUSTOMERS` store. -/
structure DemoState where
  alice : Customer
  bob : Customer

/-- The initial contents of `DEMO_CUSTOMERS`. -/
def initial_demo_state : DemoState :=
  { alice :=
      { id := "3ed93e27-3a1d-4be7-b139-7ee34578c873"
        name := "Jaison Jayaraj"
        email := "jaison.freepay.demo@example.com"
        balance_usd := 1000.00
        transactions := [] }
    bob :=
      { id := "49eed76a-008d-49e7-9118-b497d86bfc74"
        name := "Bob's Coffee Shop"
        email := "bob.freepay.demo@example.com"
        balance_usd := 50.00
        transactions := [] } }

/-- Request body of the payment endpoints (`PaymentRequest`). -/
structure PaymentRequest where
  amount : ℚ
  currency : String
  crypto_tx_hash : String
  chain_id : ℤ
  customer_wallet_address : String

/-- Response body of `/process-payment` (`PaymentResponse`). -/
structure PaymentResponse where
  success : Bool
  merchant_received_amount : ℚ
  fern_transfer_id : String
  message : String

/-- Model of `get_chain_name`: human-readable chain name with a generic fallback. -/
def get_chain_name (chain_id : ℤ) : String :=
  if chain_id = 1 then "Ethereum"
  else if chain_id = 10 then "Optimism"
  else if chain_id = 137 then "Polygon"
  else if chain_id = 42161 then "Arbitrum"
  else if chain_id = 8453 then "Base"
  else if chain_id = 84532 then "Base Sepolia"
  else if chain_id = 11155111 then "Ethereum Sepolia"
  else "Chain " ++ toString chain_id

/-- The record appended to Alice's `transactions` on a successful payment. -/
def alice_tx_record (p : PaymentRequest) (tx_id timestamp : String) : TxRecord :=
  { id := tx_id
    type := "payment_sent"
    amount := -p.amount
    party := "Bob's Coffee Shop"
    timestamp := timestamp
    settlement_status := none
    crypto_tx := p.crypto_tx_hash
    chain := get_chain_name p.chain_id }

/-- The record appended to Bob's `transactions` on a successful payment. -/
def bob_tx_record (p : PaymentRequest) (tx_id timestamp : String) : TxRecord :=
  { id := tx_id
    type := "payment_received"
    amount := p.amount
    party := "Jaison Jayaraj"
    timestamp := timestamp
    settlement_status := some "completed"
    crypto_tx := p.crypto_tx_hash
    chain := get_chain_name p.chain_id }

/-- Endpoint `/process-payment` (`process_payment`): state transition plus either an
HTTP error `(status, detail)` or a `PaymentResponse`.  `tx_id` and `timestamp`
stand for the `time`/`random`-generated values. -/
def process_payment (s : DemoState) (p : PaymentRequest)
    (tx_id timestamp : String) :
    DemoState × Except (ℕ × String) PaymentResponse :=
  if s.alice.balance_usd < p.amount then
    (s, .error (400,
      "Insufficient funds: Jaison has $" ++ toString s.alice.balance_usd ++
      ", needs $" ++ toString p.amount))
  else
    let alice' :=
      { s.alice with
        balance_usd := s.alice.balance_usd - p.amount
        transactions := s.alice.transactions ++ [alice_tx_record p tx_id timestamp] }
    let bob' :=
      { s.bob with
        balance_usd := s.bob.balance_usd + p.amount
        transactions := s.bob.transactions ++ [bob_tx_record p tx_id timestamp] }
    (⟨alice', bob'⟩, .ok
      { success := true
        merchant_received_amount := p.amount
        fern_transfer_id := tx_id
        message := "Successfully processed $" ++ toString p.amount ++
          " crypto payment with instant fiat settlement" })

/-- Endpoint `/demo/reset` (`reset_demo`): restore both balances and clear both
transaction lists. -/
def reset_demo (s : DemoState) : DemoState :=
  { alice := { s.alice with balance_usd := 1000.00, transactions := [] }
    bob := { s.bob with balance_usd := 50.00, transactions := [] } }

/-- One entry of the `providers` list built by `process_payment_v2`. -/
structure ProviderOption where
  provider : String
  fee : ℚ
  speed : String
  selected : Bool

/-- Result dictionary of `/process-payment-v2`. -/
structure V2Result where
  success : Bool
  provider_used : String
  amount : ℚ
  fee : ℚ
  settlement_time : String
  available_providers : List ProviderOption
  transaction_id : String
  message : String

/-- Endpoint `/process-payment-v2` (`process_payment_v2`): builds the provider list,
picks its head, and updates both balances unconditionally (no funds check, no
transaction records).  `tx_time` stands for `int(time.time())`. -/
def process_payment_v2 (s : DemoState) (p : PaymentRequest) (tx_time : String) :
    DemoState × V2Result :=
  let providers :=
    (if p.chain_id = 8453 ∨ p.chain_id = 137 ∨ p.chain_id = 10 ∨
        p.chain_id = 42161 then
      [({ provider := "Circle USDC", fee := 0.05, speed := "2 seconds",
          selected := true } : ProviderOption)]
    else []) ++
    [{ provider := "Coinbase Commerce", fee := 0.30, speed := "10 seconds",
       selected := false }]
  let selected := providers.headD
    { provider := "Fern API", fee := 0.01, speed := "instant", selected := false }
  let usd_amount := p.amount
  let s' : DemoState :=
    ⟨{ s.alice with balance_usd := s.alice.balance_usd - usd_amount },
     { s.bob with balance_usd := s.bob.balance_usd + usd_amount }⟩
  (s',
    { success := true
      provider_used := selected.provider
      amount := usd_amount
      fee := selected.fee
      settlement_time := selected.speed
      available_providers := providers
      transaction_id := "eazypay_tx_" ++ tx_time
      message := "Payment processed via " ++ selected.provider })

/-- Sum of the two demo balances, the quantity claimed invariant. -/
def totalBalance (s : DemoState) : ℚ :=
  s.alice.balance_usd + s.bob.balance_usd

/-! ## `fern_integration.py`: `FernAPIClient.create_crypto_transfer` -/

/-- Result dataclass `FernPaymentResult`. -/
structure FernPaymentResult where
  success : Bool
  transfer_id : Option String
  amount_received : ℚ
  error_message : Option String
  settlement_status : String

/-- The three candidate transfer URLs `create_crypto_transfer` is prepared to
POST the same `transfer_data` to (`possible_endpoints`). -/
def fern_transfer_endpoints (base_url customer_id : String) : List String :=
  [base_url ++ "/transfers",
   base_url ++ "/payments",
   base_url ++ "/customers/" ++ customer_id ++ "/transfers"]

/-- The endpoint loop of `create_crypto_transfer`: POST to each URL in order
until one responds 2xx (`respond url = true`); a non-2xx response or a raised
exception both move on to the next URL.  Returns the list of URLs actually
requested, in order, and the URL that succeeded, if any. -/
def tryEndpoints (respond : String → Bool) :
    List String → List String × Option String
  | [] => ([], none)
  | e :: rest =>
    if respond e then ([e], some e)
    else
      let r := tryEndpoints respond rest
      (e :: r.1, r.2)

/-- Model of `FernAPIClient.create_crypto_transfer`.  `customerStatus` is the outcome of
`get_customer_status` reduced to the `customerStatus` field (`.error` when the
response carried an `"error"` key), `kycLink` its `kycLink` field, `respond`
whether a POST to a given URL returns 2xx, and `transferId` the `transferId`
field of a successful response body.  Returns the list of transfer URLs
actually POSTed together with the result. -/
def create_crypto_transfer (base_url customer_id : String) (amount : ℚ)
    (customerStatus : Except String String) (kycLink : Option String)
    (respond : String → Bool) (transferId : String → Option String) :
    List String × FernPaymentResult :=
  match customerStatus with
  | .error e =>
    ([], { success := false, transfer_id := none, amount_received := 0,
           error_message := some ("Customer verification failed: " ++ e),
           settlement_status := "pending" })
  | .ok st =>
    if st ≠ "VERIFIED" then
      ([], { success := false, transfer_id := none, amount_received := 0,
             error_message := some ("KYC required. Complete verification at: " ++
               (kycLink.getD "None")),
             settlement_status := "pending" })
    else
      let r := tryEndpoints respond (fern_transfer_endpoints base_url customer_id)
      match r.2 with
      | some e =>
        (r.1, { success := true
                transfer_id := some ((transferId e).getD "fern_transfer_success")
                amount_received := amount
                error_message := none
                settlement_status := "completed" })
      | none =>
        (r.1, { success := false, transfer_id := none, amount_received := 0,
                error_message := some
                  ("No valid Fern transfer endpoint found. " ++
                   "May need API access or different integration approach.")
                settlement_status := "pending" })

/-! ## `coinbase_integration.py`: `verify_webhook` (HMAC-SHA256)

A byte is a `ℕ` below 256; 32-bit words are `ℕ` reduced mod `2 ^ 32`.  This is
a direct embedding of `hmac.new(secret, payload, hashlib.sha256).hexdigest()`:
FIPS 180-4 SHA-256 under RFC 2104 HMAC, rendered as lowercase hex. -/

/-- Right rotation of a 32-bit word. -/
def rotr32 (n x : ℕ) : ℕ := ((x >>> n) ||| (x <<< (32 - n))) % 2 ^ 32

/-- Bitwise complement of a 32-bit word. -/
def not32 (x : ℕ) : ℕ := x ^^^ (2 ^ 32 - 1)

/-- SHA-256 `Ch(x, y, z)`. -/
def ch32 (x y z : ℕ) : ℕ := (x &&& y) ^^^ (not32 x &&& z)

/-- SHA-256 `Maj(x, y, z)`. -/
def maj32 (x y z : ℕ) : ℕ := (x &&& y) ^^^ (x &&& z) ^^^ (y &&& z)

/-- SHA-256 `Σ₀`. -/
def bigSigma0 (x : ℕ) : ℕ := rotr32 2 x ^^^ rotr32 13 x ^^^ rotr32 22 x

/-- SHA-256 `Σ₁`. -/
def bigSigma1 (x : ℕ) : ℕ := rotr32 6 x ^^^ rotr32 11 x ^^^ rotr32 25 x

/-- SHA-256 `σ₀`. -/
def smallSigma0 (x : ℕ) : ℕ := rotr32 7 x ^^^ rotr32 18 x ^^^ (x >>> 3)

/-- SHA-256 `σ₁`. -/
def smallSigma1 (x : ℕ) : ℕ := rotr32 17 x ^^^ rotr32 19 x ^^^ (x >>> 10)

/-- The 64 SHA-256 round constants. -/
def sha256K : List ℕ :=
  [1116352408, 1899447441, 3049323471, 3921009573,
   961987163, 1508970993, 2453635748, 2870763221,
   3624381080, 310598401, 607225278, 1426881987,
   1925078388, 2162078206, 2614888103, 3248222580,
   3835390401, 4022224774, 264347078, 604807628,
   770255983, 1249150122, 1555081692, 1996064986,
   2554220882, 2821834349, 2952996808, 3210313671,
   3336571891, 3584528711, 113926993, 338241895,
   666307205, 773529912, 1294757372, 1396182291,
   1695183700, 1986661051, 2177026350, 2456956037,
   2730485921, 2820302411, 3259730800, 3345764771,
   3516065817, 3600352804, 4094571909, 275423344,
   430227734, 506948616, 659060556, 883997877,
   958139571, 1322822218, 1537002063, 1747873779,
   1955562222, 2024104815, 2227730452, 2361852424,
   2428436474, 2756734187, 3204031479, 3329325298]

/-- A SHA-256 hash state: eight 32-bit words. -/
structure Sha256State where
  h0 : ℕ
  h1 : ℕ
  h2 : ℕ
  h3 : ℕ
  h4 : ℕ
  h5 : ℕ
  h6 : ℕ
  h7 : ℕ

/-- The SHA-256 initial hash value. -/
def sha256InitState : Sha256State :=
  ⟨1779033703, 3144134277, 1013904242, 2773480762,
   1359893119, 2600822924, 528734635, 1541459225⟩

/-- The big-endian 8-byte rendering of the 64-bit message bit length. -/
def bytesOfLen64 (n : ℕ) : List ℕ :=
  [(n >>> 56) % 256, (n >>> 48) % 256, (n >>> 40) % 256, (n >>> 32) % 256,
   (n >>> 24) % 256, (n >>> 16) % 256, (n >>> 8) % 256, n % 256]

/-- SHA-256 message padding: `0x80`, zeros to 56 mod 64, 8-byte bit length. -/
def sha256Pad (msg : List ℕ) : List ℕ :=
  msg ++ 128 :: List.replicate ((119 - msg.length % 64) % 64) 0 ++
    bytesOfLen64 (msg.length * 8)

/-- Big-endian packing of consecutive byte quadruples into 32-bit words. -/
def words32OfBytes : List ℕ → List ℕ
  | b0 :: b1 :: b2 :: b3 :: rest =>
    (((b0 % 256) <<< 24) + ((b1 % 256) <<< 16) + ((b2 % 256) <<< 8) + b3 % 256)
      :: words32OfBytes rest
  | _ => []

/-- Grouping of the word stream into 16-word blocks. -/
def blocks16 : List ℕ → List (List ℕ)
  | w0 :: w1 :: w2 :: w3 :: w4 :: w5 :: w6 :: w7 ::
    w8 :: w9 :: w10 :: w11 :: w12 :: w13 :: w14 :: w15 :: rest =>
    [w0, w1, w2, w3, w4, w5, w6, w7, w8, w9, w10, w11, w12, w13, w14, w15]
      :: blocks16 rest
  | _ => []

/-- One message-schedule extension step, on the reversed schedule (most recent
word first): prepends `σ₁ w₍ₜ₋₂₎ + w₍ₜ₋₇₎ + σ₀ w₍ₜ₋₁₅₎ + w₍ₜ₋₁₆₎`. -/
def scheduleStep (rws : List ℕ) : List ℕ :=
  ((smallSigma1 (rws.getD 1 0) + rws.getD 6 0 +
    smallSigma0 (rws.getD 14 0) + rws.getD 15 0) % 2 ^ 32) :: rws

/-- The 64-word message schedule of one block. -/
def messageSchedule (block : List ℕ) : List ℕ :=
  ((List.range 48).foldl (fun rws _ => scheduleStep rws) block.reverse).reverse

/-- The SHA-256 compression function on one 16-word block. -/
def sha256Compress (st : Sha256State) (block : List ℕ) : Sha256State :=
  let kws := sha256K.zip (messageSchedule block)
  let f8 := kws.foldl
    (fun t kw =>
      let (a, b, c, d, e, f, g, h) := t
      let t1 := (h + bigSigma1 e + ch32 e f g + kw.1 + kw.2) % 2 ^ 32
      let t2 := (bigSigma0 a + maj32 a b c) % 2 ^ 32
      ((t1 + t2) % 2 ^ 32, a, b, c, (d + t1) % 2 ^ 32, e, f, g))
    (st.h0, st.h1, st.h2, st.h3, st.h4, st.h5, st.h6, st.h7)
  ⟨(st.h0 + f8.1) % 2 ^ 32, (st.h1 + f8.2.1) % 2 ^ 32,
   (st.h2 + f8.2.2.1) % 2 ^ 32, (st.h3 + f8.2.2.2.1) % 2 ^ 32,
   (st.h4 + f8.2.2.2.2.1) % 2 ^ 32, (st.h5 + f8.2.2.2.2.2.1) % 2 ^ 32,
   (st.h6 + f8.2.2.2.2.2.2.1) % 2 ^ 32, (st.h7 + f8.2.2.2.2.2.2.2) % 2 ^ 32⟩

/-- The big-endian byte rendering of a 32-bit word. -/
def bytesOfWord32 (w : ℕ) : List ℕ :=
  [(w >>> 24) % 256, (w >>> 16) % 256, (w >>> 8) % 256, w % 256]

/-- The SHA-256 digest of a byte string, as 32 bytes. -/
def sha256Bytes (msg : List ℕ) : List ℕ :=
  let st := (blocks16 (words32OfBytes (sha256Pad msg))).foldl sha256Compress
    sha256InitState
  bytesOfWord32 st.h0 ++ bytesOfWord32 st.h1 ++ bytesOfWord32 st.h2 ++
  bytesOfWord32 st.h3 ++ bytesOfWord32 st.h4 ++ bytesOfWord32 st.h5 ++
  bytesOfWord32 st.h6 ++ bytesOfWord32 st.h7

/-- RFC 2104 HMAC-SHA256 of a message under a key, as 32 bytes
(`hmac.new(key, msg, hashlib.sha256).digest()`). -/
def hmacSha256 (key msg : List ℕ) : List ℕ :=
  let key0 := if 64 < key.length then sha256Bytes key else key
  let keyBlock := key0 ++ List.replicate (64 - key0.length) 0
  sha256Bytes ((keyBlock.map fun b => b % 256 ^^^ 0x5c) ++
    sha256Bytes ((keyBlock.map fun b => b % 256 ^^^ 0x36) ++ msg))

/-- The lowercase hex digit of a value below 16. -/
def hexDigitChar (d : ℕ) : Char := "0123456789abcdef".toList.getD d '0'

/-- The lowercase hexadecimal rendering of a byte string (`.hexdigest()`). -/
def hexdigest (bytes : List ℕ) : String :=
  String.mk (bytes.flatMap fun b => [hexDigitChar (b / 16 % 16), hexDigitChar (b % 16)])

/-- Model of `CoinbaseCommerceClient.verify_webhook`: recompute the HMAC-SHA256 hex
digest of the payload under the webhook secret and compare it with the given
signature (`hmac.compare_digest` on equal-typed strings is equality). -/
def verify_webhook (webhook_secret payload : List ℕ) (signature : String) :
    Bool :=
  hexdigest (hmacSha256 webhook_secret payload) == signature

/-! ## Helper lemmas: head of a stable sort is the first minimum -/

theorem keyLE_trans {α β : Type} [LinearOrder β] (key : α → β) :
    ∀ a b c, keyLE key a b → keyLE key b c → keyLE key a c := by
  intro a b c hab hbc
  simp only [keyLE, decide_eq_true_iff] at *
  exact le_trans hab hbc

theorem keyLE_total {α β : Type} [LinearOrder β] (key : α → β) :
    ∀ a b, keyLE key a b || keyLE key b a := by
  intro a b
  simp only [keyLE, Bool.or_eq_true, decide_eq_true_iff]
  exact le_total _ _

theorem mergeSort_keyLE_ne_nil {α β : Type} [LinearOrder β] (key : α → β)
    (l : List α) (h : l ≠ []) : l.mergeSort (keyLE key) ≠ [] := by
  intro hn
  apply h
  have hlen := (List.mergeSort_perm l (keyLE key)).length_eq
  rw [hn] at hlen
  exact List.length_eq_zero.mp hlen.symm

theorem headD_mergeSort_mem {α β : Type} [LinearOrder β] (key : α → β)
    (l : List α) (d : α) (h : l ≠ []) :
    (l.mergeSort (keyLE key)).headD d ∈ l := by
  cases hms : l.mergeSort (keyLE key) with
  | nil => exact absurd hms (mergeSort_keyLE_ne_nil key l h)
  | cons hd t =>
    have : hd ∈ l.mergeSort (keyLE key) := by rw [hms]; exact List.mem_cons_self _ _
    simpa using List.mem_mergeSort.mp this

theorem headD_mergeSort_le {α β : Type} [LinearOrder β] (key : α → β)
    (l : List α) (d : α) (h : l ≠ []) :
    ∀ c ∈ l, key ((l.mergeSort (keyLE key)).headD d) ≤ key c := by
  intro c hc
  have hp : (l.mergeSort (keyLE key)).Pairwise (fun a b => keyLE key a b) :=
    List.sorted_mergeSort (keyLE_trans key) (keyLE_total key) l
  have hm : c ∈ l.mergeSort (keyLE key) := List.mem_mergeSort.mpr hc
  cases hms : l.mergeSort (keyLE key) with
  | nil => exact absurd hms (mergeSort_keyLE_ne_nil key l h)
  | cons hd t =>
    rw [hms] at hm hp
    simp only [List.headD_cons]
    rcases List.mem_cons.mp hm with rfl | hmt
    · exact le_refl _
    · have := (List.pairwise_cons.mp hp).1 c hmt
      simpa [keyLE] using this

theorem headD_mergeSort_first {α β : Type} [LinearOrder β] (key : α → β)
    (l : List α) (d : α) (h : l ≠ []) :
    (l.filter fun c => decide (key c = key ((l.mergeSort (keyLE key)).headD d))).head?
      = some ((l.mergeSort (keyLE key)).headD d) := by
  induction l with
  | nil => exact absurd rfl h
  | cons a l ih =>
    rcases List.mergeSort_cons (keyLE_trans key) (keyLE_total key) a l with
      ⟨l₁, l₂, h₁, h₂, h₃⟩
    cases hl₁ : l₁ with
    | nil =>
      rw [hl₁] at h₁
      rw [h₁]
      simp only [List.nil_append, List.headD_cons, List.filter_cons]
      simp
    | cons b t =>
      rw [hl₁] at h₁ h₂ h₃
      have hbl₁ : ¬(keyLE key a b) = true := by
        simpa using h₃ b (List.mem_cons_self _ _)
      have hba : key b < key a := by
        simp only [keyLE, decide_eq_true_iff] at hbl₁
        exact lt_of_not_le hbl₁
      have hlne : l ≠ [] := by
        intro hln
        rw [hln] at h₂
        simp at h₂
      have ihb := ih hlne
      rw [h₂] at ihb
      simp only [List.cons_append, List.headD_cons] at ihb
      rw [h₁]
      simp only [List.cons_append, List.headD_cons]
      rw [List.filter_cons]
      have hpa : ¬(key a = key b) := ne_of_gt hba
      rw [if_neg (by simpa using hpa)]
      exact ihb

theorem select_optimal_chain_cost_eq (amount : ℚ) (l : List String)
    (h : l ≠ []) :
    select_optimal_chain amount l "cost" = (l.mergeSort (keyLE feeOf)).headD "BASE" := by
  unfold select_optimal_chain
  rw [if_neg (by simpa [List.isEmpty_iff] using h), if_pos rfl]

theorem select_optimal_chain_speed_eq (amount : ℚ) (l : List String)
    (priority : String) (h : l ≠ []) (hp : priority ≠ "cost") :
    select_optimal_chain amount l priority = (l.mergeSort (keyLE speedOf)).headD "BASE" := by
  unfold select_optimal_chain
  rw [if_neg (by simpa [List.isEmpty_iff] using h), if_neg hp]

theorem select_optimal_chain_mem (amount : ℚ) (l : List String)
    (priority : String) (h : l ≠ []) :
    select_optimal_chain amount l priority ∈ l := by
  by_cases hp : priority = "cost"
  · rw [hp, select_optimal_chain_cost_eq amount l h]
    exact headD_mergeSort_mem feeOf l "BASE" h
  · rw [select_optimal_chain_speed_eq amount l priority h hp]
    exact headD_mergeSort_mem speedOf l "BASE" h

theorem select_optimal_chain_cost_min (amount : ℚ) (l : List String)
    (h : l ≠ []) :
    ∀ c ∈ l, feeOf (select_optimal_chain amount l "cost") ≤ feeOf c := by
  rw [select_optimal_chain_cost_eq amount l h]
  exact headD_mergeSort_le feeOf l "BASE" h

theorem select_optimal_chain_cost_first (amount : ℚ) (l : List String)
    (h : l ≠ []) :
    (l.filter fun c => decide (feeOf c = feeOf (select_optimal_chain amount l "cost"))).head?
      = some (select_optimal_chain amount l "cost") := by
  rw [select_optimal_chain_cost_eq amount l h]
  exact headD_mergeSort_first feeOf l "BASE" h

theorem select_optimal_chain_speed_min (amount : ℚ) (l : List String)
    (priority : String) (h : l ≠ []) (hp : priority ≠ "cost") :
    ∀ c ∈ l, speedOf (select_optimal_chain amount l priority) ≤ speedOf c := by
  rw [select_optimal_chain_speed_eq amount l priority h hp]
  exact headD_mergeSort_le speedOf l "BASE" h

theorem select_optimal_chain_speed_first (amount : ℚ) (l : List String)
    (priority : String) (h : l ≠ []) (hp : priority ≠ "cost") :
    (l.filter fun c => decide (speedOf c = speedOf (select_optimal_chain amount l priority))).head?
      = some (select_optimal_chain amount l priority) := by
  rw [select_optimal_chain_speed_eq amount l priority h hp]
  exact headD_mergeSort_first speedOf l "BASE" h

/-! ## The claims -/

/-- C1.  On a non-empty list of available chains, `select_optimal_chain` with
priority `"cost"` returns a member of the list whose fee under the static
`chain_fees` table (with absent chains read as fee `999`) is minimal, and with
any other priority a member whose latency under `chain_speeds` (absent read as
`999`) is minimal; in either case the returned chain is the first element of
the input list attaining that minimal key, so ties are broken by input
order. -/
theorem select_optimal_chain_correct (amount : ℚ) (l : List String)
    (priority : String) (h : l ≠ []) :
    select_optimal_chain amount l priority ∈ l ∧
    (priority = "cost" →
      (∀ c ∈ l, feeOf (select_optimal_chain amount l priority) ≤ feeOf c) ∧
      (l.filter fun c =>
          decide (feeOf c = feeOf (select_optimal_chain amount l priority))).head?
        = some (select_optimal_chain amount l priority)) ∧
    (priority ≠ "cost" →
      (∀ c ∈ l, speedOf (select_optimal_chain amount l priority) ≤ speedOf c) ∧
      (l.filter fun c =>
          decide (speedOf c = speedOf (select_optimal_chain amount l priority))).head?
        = some (select_optimal_chain amount l priority)) ∧
    (∀ c, chain_fees.lookup c = none → feeOf c = 999) ∧
    (∀ c, chain_speeds.lookup c = none → speedOf c = 999) := by
  refine ⟨select_optimal_chain_mem amount l priority h, ?_, ?_, ?_, ?_⟩
  · intro hp
    subst hp
    exact ⟨select_optimal_chain_cost_min amount l h,
      select_optimal_chain_cost_first amount l h⟩
  · intro hp
    exact ⟨select_optimal_chain_speed_min amount l priority h hp,
      select_optimal_chain_speed_first amount l priority h hp⟩
  · intro c hc
    simp [feeOf, hc]
  · intro c hc
    simp [speedOf, hc]

/-- Witness for C1 at the concrete input of the repository's own demo call:
chains `["ETH", "BASE", "MATIC"]`, amount `25`, priority `"cost"`. -/
theorem select_optimal_chain_correct_witness :
    (["ETH", "BASE", "MATIC"] : List String) ≠ [] ∧
    (select_optimal_chain 25 ["ETH", "BASE", "MATIC"] "cost" ∈
        (["ETH", "BASE", "MATIC"] : List String) ∧
      ((("cost" : String) = "cost" →
        (∀ c ∈ (["ETH", "BASE", "MATIC"] : List String),
          feeOf (select_optimal_chain 25 ["ETH", "BASE", "MATIC"] "cost") ≤ feeOf c) ∧
        ((["ETH", "BASE", "MATIC"] : List String).filter fun c =>
            decide (feeOf c =
              feeOf (select_optimal_chain 25 ["ETH", "BASE", "MATIC"] "cost"))).head?
          = some (select_optimal_chain 25 ["ETH", "BASE", "MATIC"] "cost")) ∧
      (("cost" : String) ≠ "cost" →
        (∀ c ∈ (["ETH", "BASE", "MATIC"] : List String),
          speedOf (select_optimal_chain 25 ["ETH", "BASE", "MATIC"] "cost") ≤ speedOf c) ∧
        ((["ETH", "BASE", "MATIC"] : List String).filter fun c =>
            decide (speedOf c =
              speedOf (select_optimal_chain 25 ["ETH", "BASE", "MATIC"] "cost"))).head?
          = some (select_optimal_chain 25 ["ETH", "BASE", "MATIC"] "cost")) ∧
      (∀ c, chain_fees.lookup c = none → feeOf c = 999) ∧
      (∀ c, chain_speeds.lookup c = none → speedOf c = 999))) :=
  ⟨by decide, select_optimal_chain_correct 25 ["ETH", "BASE", "MATIC"] "cost" (by decide)⟩

/-- C10.  `select_optimal_chain` on an empty list of available chains returns
the default chain `"BASE"`, whatever the amount and priority. -/
theorem select_optimal_chain_empty (amount : ℚ) (priority : String) :
    select_optimal_chain amount [] priority = "BASE" := rfl

/-- C2.  `process_circle_payment` without a preferred chain: the executed chain
is a member of the candidate set restricted to chains whose balance covers the
amount, it is fee-minimal among them, and the returned dictionary's `chain`,
`fee` and `estimated_time` fields are that chain and its entries in the static
fee and speed tables.  Hypotheses: at least one chain has sufficient balance,
every such chain appears in the static tables, and the transfer call
succeeds. -/
theorem process_circle_payment_cheapest (amount : ℚ)
    (customer_wallet merchant_wallet : String) (balances : List (String × ℚ))
    (transferResult : String → Except String (String × String)) (tid st : String)
    (havail : ((balances.filter fun p => decide (amount ≤ p.2)).map Prod.fst) ≠ [])
    (hsup : ∀ c ∈ (balances.filter fun p => decide (amount ≤ p.2)).map Prod.fst,
      (chain_fees.lookup c).isSome = true ∧ (chain_speeds.lookup c).isSome = true)
    (htr : transferResult (circle_selected_chain amount none balances) = .ok (tid, st)) :
    circle_selected_chain amount none balances =
      select_optimal_chain amount
        ((balances.filter fun p => decide (amount ≤ p.2)).map Prod.fst) "cost" ∧
    circle_selected_chain amount none balances ∈
      ((balances.filter fun p => decide (amount ≤ p.2)).map Prod.fst) ∧
    (∀ c ∈ (balances.filter fun p => decide (amount ≤ p.2)).map Prod.fst,
      feeOf (circle_selected_chain amount none balances) ≤ feeOf c) ∧
    (process_circle_payment amount customer_wallet merchant_wallet none
        (.ok balances) transferResult).success = true ∧
    (process_circle_payment amount customer_wallet merchant_wallet none
        (.ok balances) transferResult).chain =
      some (circle_selected_chain amount none balances) ∧
    (process_circle_payment amount customer_wallet merchant_wallet none
        (.ok balances) transferResult).fee =
      chain_fees.lookup (circle_selected_chain amount none balances) ∧
    (process_circle_payment amount customer_wallet merchant_wallet none
        (.ok balances) transferResult).estimated_time =
      chain_speeds.lookup (circle_selected_chain amount none balances) := by
  have hchain : circle_selected_chain amount none balances =
      select_optimal_chain amount
        ((balances.filter fun p => decide (amount ≤ p.2)).map Prod.fst) "cost" := rfl
  have hmem := select_optimal_chain_mem amount _ "cost" havail
  have hmin := select_optimal_chain_cost_min amount _ havail
  obtain ⟨f, hf⟩ : ∃ f, chain_fees.lookup (circle_selected_chain amount none balances)
      = some f := by
    rw [hchain]
    exact Option.isSome_iff_exists.mp (hsup _ hmem).1
  obtain ⟨t, ht⟩ : ∃ t, chain_speeds.lookup (circle_selected_chain amount none balances)
      = some t := by
    rw [hchain]
    exact Option.isSome_iff_exists.mp (hsup _ hmem).2
  refine ⟨hchain, ?_, ?_, ?_, ?_, ?_, ?_⟩
  · rw [hchain]
    exact hmem
  · rw [hchain]
    exact hmin
  · simp only [process_circle_payment]
    rw [htr]
  · simp only [process_circle_payment]
    rw [htr]
  · simp only [process_circle_payment]
    rw [htr]
    simp only [hf, Option.getD_some]
  · simp only [process_circle_payment]
    rw [htr]
    simp only [ht, Option.getD_some]

/-- Witness for C2: wallet balances on ETH, BASE and MATIC, amount 25 (all but
MATIC cover it), and a transfer call that succeeds. -/
theorem process_circle_payment_cheapest_witness :
    ((([("ETH", (100 : ℚ)), ("BASE", 100), ("MATIC", 5)]).filter
        fun p => decide ((25 : ℚ) ≤ p.2)).map Prod.fst) ≠ [] ∧
    (∀ c ∈ (([("ETH", (100 : ℚ)), ("BASE", 100), ("MATIC", 5)]).filter
        fun p => decide ((25 : ℚ) ≤ p.2)).map Prod.fst,
      (chain_fees.lookup c).isSome = true ∧ (chain_speeds.lookup c).isSome = true) ∧
    (process_circle_payment 25 "wallet_cust" "wallet_merch" none
        (.ok [("ETH", 100), ("BASE", 100), ("MATIC", 5)])
        (fun _ => .ok ("tr_1", "pending"))).success = true ∧
    (process_circle_payment 25 "wallet_cust" "wallet_merch" none
        (.ok [("ETH", 100), ("BASE", 100), ("MATIC", 5)])
        (fun _ => .ok ("tr_1", "pending"))).fee =
      chain_fees.lookup
        (circle_selected_chain 25 none [("ETH", 100), ("BASE", 100), ("MATIC", 5)]) := by
  have h := process_circle_payment_cheapest 25 "wallet_cust" "wallet_merch"
    [("ETH", 100), ("BASE", 100), ("MATIC", 5)]
    (fun _ => .ok ("tr_1", "pending")) "tr_1" "pending"
    (by decide) (by decide) rfl
  exact ⟨by decide, by decide, h.2.2.2.1, h.2.2.2.2.2.1⟩

/-- C6.  The settlement adapters never raise: for every oracle outcome they
return a result with a definite boolean `success` and their fixed `provider`
string, and whenever the underlying provider call fails the result has
`success = false` and carries the failure message in `error`. -/
theorem settlement_adapters_normalize (amount : ℚ)
    (customer_wallet merchant_wallet : String) (preferred_chain : Option String)
    (balancesResult : Except String (List (String × ℚ)))
    (transferResult : String → Except String (String × String))
    (amount2 : ℚ) (customer_name : String)
    (chargeResult : Except String (String × Option String)) :
    (process_circle_payment amount customer_wallet merchant_wallet
        preferred_chain balancesResult transferResult).provider = "Circle USDC" ∧
    (process_coinbase_payment amount2 customer_name chargeResult).provider =
      "Coinbase Commerce" ∧
    ((process_circle_payment amount customer_wallet merchant_wallet
        preferred_chain balancesResult transferResult).success = true ∨
      ∃ e, (process_circle_payment amount customer_wallet merchant_wallet
        preferred_chain balancesResult transferResult).error = some e) ∧
    ((process_coinbase_payment amount2 customer_name chargeResult).success = true ∨
      ∃ e, (process_coinbase_payment amount2 customer_name chargeResult).error = some e) ∧
    (∀ e, balancesResult = .error e →
      (process_circle_payment amount customer_wallet merchant_wallet
          preferred_chain balancesResult transferResult).success = false ∧
      (process_circle_payment amount customer_wallet merchant_wallet
          preferred_chain balancesResult transferResult).error = some e) ∧
    (∀ bs e, balancesResult = .ok bs →
      transferResult (circle_selected_chain amount preferred_chain bs) = .error e →
      (process_circle_payment amount customer_wallet merchant_wallet
          preferred_chain balancesResult transferResult).success = false ∧
      (process_circle_payment amount customer_wallet merchant_wallet
          preferred_chain balancesResult transferResult).error = some e) ∧
    (∀ e, chargeResult = .error e →
      (process_coinbase_payment amount2 customer_name chargeResult).success = false ∧
      (process_coinbase_payment amount2 customer_name chargeResult).error = some e) := by
  refine ⟨?_, ?_, ?_, ?_, ?_, ?_, ?_⟩
  · cases balancesResult with
    | error e => rfl
    | ok bs =>
      cases htr : transferResult (circle_selected_chain amount preferred_chain bs) with
      | error e => simp [process_circle_payment, htr]
      | ok p => simp [process_circle_payment, htr]
  · cases chargeResult with
    | error e => rfl
    | ok p => rfl
  · cases balancesResult with
    | error e => right; exact ⟨e, rfl⟩
    | ok bs =>
      cases htr : transferResult (circle_selected_chain amount preferred_chain bs) with
      | error e => right; exact ⟨e, by simp [process_circle_payment, htr]⟩
      | ok p => left; simp [process_circle_payment, htr]
  · cases chargeResult with
    | error e => right; exact ⟨e, rfl⟩
    | ok p => left; rfl
  · intro e he
    subst he
    exact ⟨rfl, rfl⟩
  · intro bs e hbs htr
    subst hbs
    simp [process_circle_payment, htr]
  · intro e he
    subst he
    exact ⟨rfl, rfl⟩

/-- Witness for C6: both adapters run against failing provider calls. -/
theorem settlement_adapters_normalize_witness :
    (process_circle_payment 10 "wallet_c" "wallet_m" none
        (.error "connection reset") (fun _ => .error "boom")).provider =
      "Circle USDC" ∧
    (process_circle_payment 10 "wallet_c" "wallet_m" none
        (.error "connection reset") (fun _ => .error "boom")).success = false ∧
    (process_circle_payment 10 "wallet_c" "wallet_m" none
        (.error "connection reset") (fun _ => .error "boom")).error =
      some "connection reset" ∧
    (process_coinbase_payment 10 "Jaison Jayaraj" (.error "402 payment required")).success
      = false ∧
    (process_coinbase_payment 10 "Jaison Jayaraj" (.error "402 payment required")).error
      = some "402 payment required" := by
  have h := settlement_adapters_normalize 10 "wallet_c" "wallet_m" none
    (.error "connection reset") (fun _ => .error "boom")
    10 "Jaison Jayaraj" (.error "402 payment required")
  exact ⟨h.1, (h.2.2.2.2.1 "connection reset" rfl).1,
    (h.2.2.2.2.1 "connection reset" rfl).2,
    (h.2.2.2.2.2.2 "402 payment required" rfl).1,
    (h.2.2.2.2.2.2 "402 payment required" rfl).2⟩

/-- C3.  When the requested amount exceeds Alice's current balance,
`process_payment` fails with HTTP status 400 and leaves the store — both
balances and both transaction lists — unchanged: the insufficient-funds check
precedes every mutation. -/
theorem process_payment_insufficient_funds (s : DemoState) (p : PaymentRequest)
    (tx_id timestamp : String) (h : s.alice.balance_usd < p.amount) :
    (process_payment s p tx_id timestamp).1 = s ∧
    ∃ msg, (process_payment s p tx_id timestamp).2 = .error (400, msg) := by
  unfold process_payment
  rw [if_pos h]
  exact ⟨rfl, _, rfl⟩

/-- Witness for C3: a 2000-dollar request against Alice's initial 1000-dollar
balance is rejected with a 400 and the initial state survives. -/
theorem process_payment_insufficient_funds_witness :
    initial_demo_state.alice.balance_usd < (2000 : ℚ) ∧
    ((process_payment initial_demo_state
        { amount := 2000, currency := "USD", crypto_tx_hash := "0xdead",
          chain_id := 8453, customer_wallet_address := "0xwallet" }
        "demo_tx_1" "2025-01-01 00:00:00").1 = initial_demo_state ∧
      ∃ msg, (process_payment initial_demo_state
        { amount := 2000, currency := "USD", crypto_tx_hash := "0xdead",
          chain_id := 8453, customer_wallet_address := "0xwallet" }
        "demo_tx_1" "2025-01-01 00:00:00").2 = .error (400, msg)) :=
  ⟨by norm_num [initial_demo_state],
   process_payment_insufficient_funds initial_demo_state
     { amount := 2000, currency := "USD", crypto_tx_hash := "0xdead",
       chain_id := 8453, customer_wallet_address := "0xwallet" }
     "demo_tx_1" "2025-01-01 00:00:00" (by norm_num [initial_demo_state])⟩

/-- C4.  A successful `process_payment` call moves exactly the requested
amount from Alice to Bob, appends one transaction record carrying the same
transaction id to each customer's list, and returns `success = true` with
`merchant_received_amount` equal to the requested amount. -/
theorem process_payment_success_transfers (s : DemoState) (p : PaymentRequest)
    (tx_id timestamp : String) (h : p.amount ≤ s.alice.balance_usd) :
    (process_payment s p tx_id timestamp).1.alice.balance_usd =
      s.alice.balance_usd - p.amount ∧
    (process_payment s p tx_id timestamp).1.bob.balance_usd =
      s.bob.balance_usd + p.amount ∧
    (process_payment s p tx_id timestamp).1.alice.transactions =
      s.alice.transactions ++ [alice_tx_record p tx_id timestamp] ∧
    (process_payment s p tx_id timestamp).1.bob.transactions =
      s.bob.transactions ++ [bob_tx_record p tx_id timestamp] ∧
    (alice_tx_record p tx_id timestamp).id = tx_id ∧
    (bob_tx_record p tx_id timestamp).id = tx_id ∧
    ∃ resp, (process_payment s p tx_id timestamp).2 = .ok resp ∧
      resp.success = true ∧
      resp.merchant_received_amount = p.amount ∧
      resp.fern_transfer_id = tx_id := by
  unfold process_payment
  rw [if_neg (not_lt.mpr h)]
  exact ⟨rfl, rfl, rfl, rfl, rfl, rfl, _, rfl, rfl, rfl, rfl⟩

/-- Witness for C4: a 25-dollar payment from the initial state. -/
theorem process_payment_success_transfers_witness :
    (25 : ℚ) ≤ initial_demo_state.alice.balance_usd ∧
    ((process_payment initial_demo_state
        { amount := 25, currency := "USD", crypto_tx_hash := "0xbeef",
          chain_id := 8453, customer_wallet_address := "0xwallet" }
        "demo_tx_2" "2025-01-01 00:00:01").1.alice.balance_usd =
      initial_demo_state.alice.balance_usd - 25 ∧
    (process_payment initial_demo_state
        { amount := 25, currency := "USD", crypto_tx_hash := "0xbeef",
          chain_id := 8453, customer_wallet_address := "0xwallet" }
        "demo_tx_2" "2025-01-01 00:00:01").1.bob.balance_usd =
      initial_demo_state.bob.balance_usd + 25 ∧
    (process_payment initial_demo_state
        { amount := 25, currency := "USD", crypto_tx_hash := "0xbeef",
          chain_id := 8453, customer_wallet_address := "0xwallet" }
        "demo_tx_2" "2025-01-01 00:00:01").1.alice.transactions =
      initial_demo_state.alice.transactions ++
        [alice_tx_record
          { amount := 25, currency := "USD", crypto_tx_hash := "0xbeef",
            chain_id := 8453, customer_wallet_address := "0xwallet" }
          "demo_tx_2" "2025-01-01 00:00:01"] ∧
    (process_payment initial_demo_state
        { amount := 25, currency := "USD", crypto_tx_hash := "0xbeef",
          chain_id := 8453, customer_wallet_address := "0xwallet" }
        "demo_tx_2" "2025-01-01 00:00:01").1.bob.transactions =
      initial_demo_state.bob.transactions ++
        [bob_tx_record
          { amount := 25, currency := "USD", crypto_tx_hash := "0xbeef",
            chain_id := 8453, customer_wallet_address := "0xwallet" }
          "demo_tx_2" "2025-01-01 00:00:01"] ∧
    (alice_tx_record
        { amount := 25, currency := "USD", crypto_tx_hash := "0xbeef",
          chain_id := 8453, customer_wallet_address := "0xwallet" }
        "demo_tx_2" "2025-01-01 00:00:01").id = "demo_tx_2" ∧
    (bob_tx_record
        { amount := 25, currency := "USD", crypto_tx_hash := "0xbeef",
          chain_id := 8453, customer_wallet_address := "0xwallet" }
        "demo_tx_2" "2025-01-01 00:00:01").id = "demo_tx_2" ∧
    ∃ resp, (process_payment initial_demo_state
        { amount := 25, currency := "USD", crypto_tx_hash := "0xbeef",
          chain_id := 8453, customer_wallet_address := "0xwallet" }
        "demo_tx_2" "2025-01-01 00:00:01").2 = .ok resp ∧
      resp.success = true ∧
      resp.merchant_received_amount = 25 ∧
      resp.fern_transfer_id = "demo_tx_2") :=
  ⟨by norm_num [initial_demo_state],
   process_payment_success_transfers initial_demo_state
     { amount := 25, currency := "USD", crypto_tx_hash := "0xbeef",
       chain_id := 8453, customer_wallet_address := "0xwallet" }
     "demo_tx_2" "2025-01-01 00:00:01" (by norm_num [initial_demo_state])⟩

/-- C5.  The sum of Alice's and Bob's balances is invariant under
`process_payment` (both branches) and `process_payment_v2`, `reset_demo`
restores the balances to 1000.00 and 50.00 with total 1050.00, and the initial
store's total is 1050.00. -/
theorem demo_total_balance_invariant (s : DemoState) (p : PaymentRequest)
    (tx_id timestamp tx_time : String) :
    totalBalance (process_payment s p tx_id timestamp).1 = totalBalance s ∧
    totalBalance (process_payment_v2 s p tx_time).1 = totalBalance s ∧
    (reset_demo s).alice.balance_usd = 1000.00 ∧
    (reset_demo s).bob.balance_usd = 50.00 ∧
    totalBalance (reset_demo s) = 1050.00 ∧
    totalBalance initial_demo_state = 1050.00 := by
  refine ⟨?_, ?_, rfl, rfl, ?_, ?_⟩
  · unfold process_payment
    by_cases h : s.alice.balance_usd < p.amount
    · rw [if_pos h]
    · rw [if_neg h]
      simp only [totalBalance]
      ring
  · simp only [process_payment_v2, totalBalance]
    ring
  · simp only [totalBalance, reset_demo]
    norm_num
  · simp only [totalBalance, initial_demo_state]
    norm_num

/-- C9.  `process_payment_v2` performs no insufficient-funds check: it
unconditionally moves the requested amount from Alice to Bob, so whenever the
amount exceeds Alice's balance her balance goes negative — unlike
`process_payment`, which rejects the same request with a 400 and leaves the
state unchanged. -/
theorem process_payment_v2_no_funds_check (s : DemoState) (p : PaymentRequest)
    (tx_time tx_id timestamp : String) :
    (process_payment_v2 s p tx_time).1.alice.balance_usd =
      s.alice.balance_usd - p.amount ∧
    (process_payment_v2 s p tx_time).1.bob.balance_usd =
      s.bob.balance_usd + p.amount ∧
    (s.alice.balance_usd < p.amount →
      (process_payment_v2 s p tx_time).1.alice.balance_usd < 0 ∧
      (process_payment s p tx_id timestamp).1 = s ∧
      ∃ msg, (process_payment s p tx_id timestamp).2 = .error (400, msg)) := by
  refine ⟨rfl, rfl, fun h => ⟨?_, ?_, ?_⟩⟩
  · have : (process_payment_v2 s p tx_time).1.alice.balance_usd =
        s.alice.balance_usd - p.amount := rfl
    rw [this]
    linarith
  · unfold process_payment
    rw [if_pos h]
  · unfold process_payment
    rw [if_pos h]
    exact ⟨_, rfl⟩

/-- Witness for C9: a 2000-dollar request against the initial store drives
Alice's balance to −1000 under `process_payment_v2`. -/
theorem process_payment_v2_no_funds_check_witness :
    initial_demo_state.alice.balance_usd < (2000 : ℚ) ∧
    (process_payment_v2 initial_demo_state
        { amount := 2000, currency := "USD", crypto_tx_hash := "0xfee",
          chain_id := 137, customer_wallet_address := "0xwallet" }
        "1735689600").1.alice.balance_usd < 0 :=
  ⟨by norm_num [initial_demo_state],
   ((process_payment_v2_no_funds_check initial_demo_state
       { amount := 2000, currency := "USD", crypto_tx_hash := "0xfee",
         chain_id := 137, customer_wallet_address := "0xwallet" }
       "1735689600" "demo_tx_3" "2025-01-01 00:00:02").2.2
     (by norm_num [initial_demo_state])).1⟩

theorem tryEndpoints_sublist (respond : String → Bool) :
    ∀ l : List String, (tryEndpoints respond l).1.Sublist l := by
  intro l
  induction l with
  | nil => exact List.Sublist.refl _
  | cons e rest ih =>
    unfold tryEndpoints
    by_cases h : respond e
    · rw [if_pos h]
      exact (List.nil_sublist rest).cons₂ e
    · rw [if_neg h]
      exact ih.cons₂ e

theorem tryEndpoints_stops (respond : String → Bool) :
    ∀ l : List String,
      (∀ e ∈ (tryEndpoints respond l).1, respond e = false) ∨
      ∃ pre hit, (tryEndpoints respond l).1 = pre ++ [hit] ∧
        respond hit = true ∧ ∀ x ∈ pre, respond x = false := by
  intro l
  induction l with
  | nil => left; intro e he; simp [tryEndpoints] at he
  | cons e rest ih =>
    unfold tryEndpoints
    by_cases h : respond e
    · right
      refine ⟨[], e, ?_, h, ?_⟩
      · rw [if_pos h]
        rfl
      · intro x hx; simp at hx
    · rw [if_neg h]
      rcases ih with hall | ⟨pre, hit, h1, h2, h3⟩
      · left
        intro x hx
        rcases List.mem_cons.mp hx with rfl | hx'
        · simpa using h
        · exact hall x hx'
      · right
        refine ⟨e :: pre, hit, ?_, h2, ?_⟩
        · simp [h1]
        · intro x hx
          rcases List.mem_cons.mp hx with rfl | hx'
          · simpa using h
          · exact h3 x hx'

theorem fern_transfer_endpoints_nodup (base_url customer_id : String) :
    (fern_transfer_endpoints base_url customer_id).Nodup := by
  have l1 : ("/transfers" : String).length = 10 := by decide
  have l2 : ("/payments" : String).length = 9 := by decide
  have l3 : ("/customers/" : String).length = 11 := by decide
  have h12 : base_url ++ "/transfers" ≠ base_url ++ "/payments" := by
    intro h
    have hl := congrArg String.length h
    simp only [String.length_append, l1, l2] at hl
    omega
  have h13 : base_url ++ "/transfers" ≠
      base_url ++ "/customers/" ++ customer_id ++ "/transfers" := by
    intro h
    have hl := congrArg String.length h
    simp only [String.length_append, l1, l3] at hl
    omega
  have h23 : base_url ++ "/payments" ≠
      base_url ++ "/customers/" ++ customer_id ++ "/transfers" := by
    intro h
    have hl := congrArg String.length h
    simp only [String.length_append, l1, l2, l3] at hl
    omega
  refine List.nodup_cons.mpr ⟨?_, List.nodup_cons.mpr ⟨?_, List.nodup_singleton _⟩⟩
  · intro hmem
    rcases List.mem_cons.mp hmem with hm | hm
    · exact h12 hm
    · rw [List.mem_singleton] at hm
      exact h13 hm
  · intro hmem
    rw [List.mem_singleton] at hmem
    exact h23 hmem

/-- C7 counterexample.  When the customer is verified and every transfer
endpoint fails, `create_crypto_transfer` POSTs the same `transfer_data` three
times within the single settlement flow — so a failed provider call IS
re-attempted (against the fallback endpoints), contradicting the claim that
every external call is issued at most once with no repeated attempt. -/
theorem fern_reattempts_failed_transfer :
    ((create_crypto_transfer "https://api.fernhq.com" "cust_123" 10
        (.ok "VERIFIED") none (fun _ => false) (fun _ => none)).1).length = 3 ∧
    ¬(((create_crypto_transfer "https://api.fernhq.com" "cust_123" 10
        (.ok "VERIFIED") none (fun _ => false) (fun _ => none)).1).length ≤ 1) := by
  constructor
  · rfl
  · intro h
    rw [show ((create_crypto_transfer "https://api.fernhq.com" "cust_123" 10
        (.ok "VERIFIED") none (fun _ => false) (fun _ => none)).1).length = 3
      from rfl] at h
    omega

/-- C7 amended.  Within one `create_crypto_transfer` flow, the POSTed URLs
form a sublist of the three fixed candidate endpoints, so each DISTINCT
endpoint is requested at most once and at most three transfer POSTs happen;
the loop stops at the first success (every earlier attempt failed), and
failures of the same endpoint are never re-issued.  (The same transfer payload
may however be attempted against up to three different endpoints.) -/
theorem fern_transfer_attempts_bounded (base_url customer_id : String)
    (amount : ℚ) (customerStatus : Except String String)
    (kycLink : Option String) (respond : String → Bool)
    (transferId : String → Option String) :
    (create_crypto_transfer base_url customer_id amount customerStatus kycLink
        respond transferId).1.Sublist
      (fern_transfer_endpoints base_url customer_id) ∧
    (create_crypto_transfer base_url customer_id amount customerStatus kycLink
        respond transferId).1.Nodup ∧
    (∀ e, (create_crypto_transfer base_url customer_id amount customerStatus
        kycLink respond transferId).1.count e ≤ 1) ∧
    ((∀ e ∈ (create_crypto_transfer base_url customer_id amount customerStatus
        kycLink respond transferId).1, respond e = false) ∨
      ∃ pre hit, (create_crypto_transfer base_url customer_id amount
          customerStatus kycLink respond transferId).1 = pre ++ [hit] ∧
        respond hit = true ∧ ∀ x ∈ pre, respond x = false) := by
  have key : (create_crypto_transfer base_url customer_id amount customerStatus
      kycLink respond transferId).1 = [] ∨
      (create_crypto_transfer base_url customer_id amount customerStatus
        kycLink respond transferId).1 =
      (tryEndpoints respond (fern_transfer_endpoints base_url customer_id)).1 := by
    cases customerStatus with
    | error e => left; rfl
    | ok st =>
      by_cases hst : st = "VERIFIED"
      · subst hst
        right
        cases h2 : (tryEndpoints respond
            (fern_transfer_endpoints base_url customer_id)).2 with
        | none => simp [create_crypto_transfer, h2]
        | some e => simp [create_crypto_transfer, h2]
      · left
        simp [create_crypto_transfer, hst]
  rcases key with h | h <;> rw [h]
  · refine ⟨List.nil_sublist _, List.nodup_nil, ?_, ?_⟩
    · intro e; simp
    · left; intro e he; simp at he
  · have hsub := tryEndpoints_sublist respond
      (fern_transfer_endpoints base_url customer_id)
    have hnd := hsub.nodup (fern_transfer_endpoints_nodup base_url customer_id)
    refine ⟨hsub, hnd, ?_, tryEndpoints_stops respond _⟩
    intro e
    exact List.nodup_iff_count_le_one.mp hnd e

/-- Witness for the amended C7 at a concrete flow: verified customer, first
endpoint failing, second succeeding. -/
theorem fern_transfer_attempts_bounded_witness :
    (create_crypto_transfer "https://api.fernhq.com" "cust_9" 5 (.ok "VERIFIED")
        none (fun u => decide (u = "https://api.fernhq.com/payments"))
        (fun _ => some "tr_77")).1.Sublist
      (fern_transfer_endpoints "https://api.fernhq.com" "cust_9") ∧
    (create_crypto_transfer "https://api.fernhq.com" "cust_9" 5 (.ok "VERIFIED")
        none (fun u => decide (u = "https://api.fernhq.com/payments"))
        (fun _ => some "tr_77")).1.Nodup ∧
    (∀ e, (create_crypto_transfer "https://api.fernhq.com" "cust_9" 5
        (.ok "VERIFIED") none
        (fun u => decide (u = "https://api.fernhq.com/payments"))
        (fun _ => some "tr_77")).1.count e ≤ 1) ∧
    ((∀ e ∈ (create_crypto_transfer "https://api.fernhq.com" "cust_9" 5
        (.ok "VERIFIED") none
        (fun u => decide (u = "https://api.fernhq.com/payments"))
        (fun _ => some "tr_77")).1,
        (fun u => decide (u = "https://api.fernhq.com/payments")) e = false) ∨
      ∃ pre hit, (create_crypto_transfer "https://api.fernhq.com" "cust_9" 5
          (.ok "VERIFIED") none
          (fun u => decide (u = "https://api.fernhq.com/payments"))
          (fun _ => some "tr_77")).1 = pre ++ [hit] ∧
        (fun u => decide (u = "https://api.fernhq.com/payments")) hit = true ∧
        ∀ x ∈ pre, (fun u => decide (u = "https://api.fernhq.com/payments")) x
          = false) :=
  fern_transfer_attempts_bounded "https://api.fernhq.com" "cust_9" 5
    (.ok "VERIFIED") none
    (fun u => decide (u = "https://api.fernhq.com/payments"))
    (fun _ => some "tr_77")

theorem length_flatMap_pair {α : Type} (f g : α → Char) (l : List α) :
    (l.flatMap fun b => [f b, g b]).length = 2 * l.length := by
  induction l with
  | nil => rfl
  | cons b l ih =>
    rw [List.flatMap_cons, List.length_append, ih]
    simp only [List.length_cons, List.length_nil]
    omega

theorem sha256Bytes_length (msg : List ℕ) : (sha256Bytes msg).length = 32 := by
  simp [sha256Bytes, bytesOfWord32]

theorem hmacSha256_length (key msg : List ℕ) : (hmacSha256 key msg).length = 32 := by
  unfold hmacSha256
  exact sha256Bytes_length _

theorem hexDigitChar_mem (d : ℕ) : hexDigitChar d ∈ "0123456789abcdef".toList := by
  unfold hexDigitChar
  rw [List.getD_eq_getElem?_getD]
  cases h : "0123456789abcdef".toList[d]? with
  | none => simp
  | some c =>
    simp only [Option.getD_some]
    exact List.getElem?_mem h

/-- C8.  `verify_webhook` returns `true` exactly when the given signature
string equals the HMAC-SHA256 hex digest of the payload under the webhook
secret; that digest is a 64-character string of lowercase hexadecimal
digits. -/
theorem verify_webhook_iff (webhook_secret payload : List ℕ)
    (signature : String) :
    (verify_webhook webhook_secret payload signature = true ↔
      signature = hexdigest (hmacSha256 webhook_secret payload)) ∧
    (hexdigest (hmacSha256 webhook_secret payload)).length = 64 ∧
    (hexdigest (hmacSha256 webhook_secret payload)).toList.all
      (fun c => decide (c ∈ "0123456789abcdef".toList)) = true := by
  refine ⟨?_, ?_, ?_⟩
  · unfold verify_webhook
    rw [beq_iff_eq]
    exact eq_comm
  · unfold hexdigest
    rw [String.length_mk, length_flatMap_pair, hmacSha256_length]
  · rw [List.all_eq_true]
    intro c hc
    rw [decide_eq_true_iff]
    unfold hexdigest at hc
    have hc' : c ∈ (hmacSha256 webhook_secret payload).flatMap
        fun b => [hexDigitChar (b / 16 % 16), hexDigitChar (b % 16)] := hc
    rcases List.mem_flatMap.mp hc' with ⟨b, _, hcb⟩
    rcases List.mem_cons.mp hcb with rfl | hcb'
    · exact hexDigitChar_mem _
    · rw [List.mem_singleton] at hcb'
      subst hcb'
      exact hexDigitChar_mem _

/-- Witness for C8: the correct signature of the empty payload under the empty
secret verifies, and a wrong one does not. -/
theorem verify_webhook_iff_witness :
    (verify_webhook [] [] (hexdigest (hmacSha256 [] [])) = true ↔
      hexdigest (hmacSha256 [] []) = hexdigest (hmacSha256 [] [])) ∧
    (hexdigest (hmacSha256 [] [])).length = 64 ∧
    (hexdigest (hmacSha256 [] [])).toList.all
      (fun c => decide (c ∈ "0123456789abcdef".toList)) = true :=
  verify_webhook_iff [] [] (hexdigest (hmacSha256 [] []))
